import Mathlib

/-!
Verification development for the WHR (waste heat reuse) calculator.

The source is a React page whose computation pipeline lives in a chain of
memoised pure derivations (core, perf, outputs, potentialCO2, offtakeCosts,
dcSavings, co2Bars, ownershipComparison).  Each derivation is embedded here
as a Lean function over the rational numbers, with JS numbers modelled as
rationals and nullable values modelled as Option.  One caveat is recorded
where it matters: JS division by zero produces Infinity or NaN, while
rational division by zero in Lean yields 0, so every theorem that touches a
quotient either keeps the denominator away from zero or states only sign
facts that hold with a nonzero denominator.
-/

namespace WHR

/-- Closed enumeration of offtake kinds, from the Offtake union type. -/
inductive Offtake where
  | hotWater
  | districtHeat
  | waterTreatmentFO
  | atmosphericWater
  | greenhouses
  | foodBrewery
  | dac
deriving DecidableEq, Repr

/-- Numeric range record, from the Range type alias. -/
structure Range where
  min : ℚ
  max : ℚ
deriving DecidableEq, Repr

/-- Hours in a year, constant MWH_PER_MW_YEAR. -/
def MWH_PER_MW_YEAR : ℚ := 8760

/-- Litres per cubic metre, constant L_PER_M3. -/
def L_PER_M3 : ℚ := 1000

/-- Gallons to cubic metres, constant GAL_TO_M3. -/
def GAL_TO_M3 : ℚ := 0.00378541

/-- DAC capture constant DAC_TCO2_PER_MW_YEAR (tCO2 per MW-year). -/
def DAC_TCO2_PER_MW_YEAR : ℚ := 4550

/-- Legacy DAC water ratio DAC_WATER_M3_PER_TCO2 (m3 per tCO2). -/
def DAC_WATER_M3_PER_TCO2 : ℚ := 1.6

/-- DAC water byproduct constant DAC_WATER_M3_PER_MW_YEAR (m3 per MW-year). -/
def DAC_WATER_M3_PER_MW_YEAR : ℚ := 160

/-- DAC release temperature constant DAC_RELEASE_TEMP_C. -/
def DAC_RELEASE_TEMP_C : ℚ := 65

/-- FO treatment throughput range TREVI_L_PER_MW_YEAR_RANGE (litres per MW-year). -/
def TREVI_L_PER_MW_YEAR_RANGE : Range := { min := 255000000, max := 365000000 }

/-- Midpoint FO throughput TREVI_M3_PER_MW_YEAR_MID (m3 per MW-year). -/
def TREVI_M3_PER_MW_YEAR_MID : ℚ :=
  (TREVI_L_PER_MW_YEAR_RANGE.min + TREVI_L_PER_MW_YEAR_RANGE.max) / 2 / L_PER_M3

/-- Atmospheric water throughput range URAVU_L_PER_MW_YEAR_RANGE. -/
def URAVU_L_PER_MW_YEAR_RANGE : Range := { min := 2000000, max := 15000000 }

/-- Midpoint atmospheric water throughput URAVU_M3_PER_MW_YEAR_MID. -/
def URAVU_M3_PER_MW_YEAR_MID : ℚ :=
  (URAVU_L_PER_MW_YEAR_RANGE.min + URAVU_L_PER_MW_YEAR_RANGE.max) / 2 / L_PER_M3

/-- Greenhouse energy intensity GREENHOUSE_MWH_PER_HA_YEAR_DEFAULT. -/
def GREENHOUSE_MWH_PER_HA_YEAR_DEFAULT : ℚ := 4500

/-- Default household heat demand DEFAULT_MWH_PER_HOME_YEAR. -/
def DEFAULT_MWH_PER_HOME_YEAR : ℚ := 14.5

/-- Reference WHR installation cost WHR_INSTALLATION_COST_PER_MW. -/
def WHR_INSTALLATION_COST_PER_MW : ℚ := 0.25 * 1000000

/-- CO2 abatement range for DAC, constant DAC_CO2_KT_RANGE (kt per MW-year). -/
def DAC_CO2_KT_RANGE : Range := { min := 4.0, max := 5.0 }

/-- CO2 abatement range for forward osmosis, constant FO_CO2_KT_RANGE. -/
def FO_CO2_KT_RANGE : Range := { min := 0.5, max := 1.5 }

/-- CO2 abatement range for food and brewery, constant FNB_CO2_KT_RANGE. -/
def FNB_CO2_KT_RANGE : Range := { min := 0.3, max := 0.8 }

/-- CO2 abatement range for atmospheric water, constant AWH_CO2_KT_RANGE. -/
def AWH_CO2_KT_RANGE : Range := { min := 0.1, max := 0.3 }

/-- CO2 abatement range for greenhouses, constant GREENHOUSE_CO2_KT_PER_MWYR_RANGE. -/
def GREENHOUSE_CO2_KT_PER_MWYR_RANGE : Range := { min := 0.2, max := 0.6 }

/-- CO2 abatement range for district heat, constant DISTRICT_HEAT_CO2_KT_RANGE. -/
def DISTRICT_HEAT_CO2_KT_RANGE : Range := { min := 0.1, max := 0.5 }

/-- Helper clamp(n, min, max) = Math.min(max, Math.max(min, n)).  The source
parameters are named min and max; they are renamed lo and hi here so the body
can use the ordinary min and max functions. -/
def clamp (n lo hi : ℚ) : ℚ := min hi (max lo n)

/-- Piecewise-linear performance ramp, function ramp(tempC, t0, t1, v0, v1):
v0 below t0, v1 above t1, linear interpolation in between. -/
def ramp (tempC t0 t1 v0 v1 : ℚ) : ℚ :=
  if tempC ≤ t0 then v0
  else if t1 ≤ tempC then v1
  else v0 + (tempC - t0) / (t1 - t0) * (v1 - v0)

/-- Scenario inputs: the useState fields of the page that feed the memoised
derivations.  String-valued selectors keep their source keys. -/
structure Scenario where
  offtake : Offtake
  itLoadMW : ℚ
  recoveryPct : ℚ
  hoursPerYear : ℚ
  dcReturnTempC : ℚ
  mwhPerHomeYear : ℚ
  phxGpcd : ℚ
  intakeDistanceKm : ℚ
  country : String
  dcConfig : String
  erfPercent : ℚ
  dacMarketPrice : ℚ
  dacProcurementPrice : ℚ
  waterMarketPrice : ℚ
  waterProductionCost : ℚ
  thermalEnergyPrice : ℚ
  electricityCost : ℚ
  coolingCOP : ℚ
  whrCapitalCostPerMW : ℚ
  tippingFeePerMWh : ℚ
  revenueSharePercent : ℚ
deriving DecidableEq, Repr

/-- Default scenario: the initial useState values of the page. -/
def baseScenario : Scenario :=
  { offtake := .dac
    itLoadMW := 200
    recoveryPct := 10
    hoursPerYear := 8760
    dcReturnTempC := 27
    mwhPerHomeYear := DEFAULT_MWH_PER_HOME_YEAR
    phxGpcd := 125
    intakeDistanceKm := 0.5
    country := "European average"
    dcConfig := "Ballard"
    erfPercent := 10
    dacMarketPrice := 200
    dacProcurementPrice := 150
    waterMarketPrice := 4.5
    waterProductionCost := 3.5
    thermalEnergyPrice := 75
    electricityCost := 284
    coolingCOP := 3.3
    whrCapitalCostPerMW := 0.25
    tippingFeePerMWh := 10
    revenueSharePercent := 30 }

/-- Derived supply temperature, the const dcSupplyTempC = dcReturnTempC - 12. -/
def dcSupplyTempC (s : Scenario) : ℚ := s.dcReturnTempC - 12

/-- Output record of the core memo. -/
structure CoreOut where
  recoverableHeatMW : ℚ
  annualHeatMWh : ℚ
  effectiveMWyr : ℚ
  dcDeltaT : ℚ
deriving DecidableEq, Repr

/-- Thermal core memo: recoverable heat, annual energy, full-year-equivalent
capacity and loop delta-T. -/
def core (s : Scenario) : CoreOut :=
  let recFrac := clamp s.recoveryPct 0 100 / 100
  let recoverableHeatMW := s.itLoadMW * recFrac
  { recoverableHeatMW := recoverableHeatMW
    annualHeatMWh := recoverableHeatMW * s.hoursPerYear
    effectiveMWyr := recoverableHeatMW * (s.hoursPerYear / 8760)
    dcDeltaT := max 1 (s.dcReturnTempC - dcSupplyTempC s) }

/-- Output record of the perf memo. -/
structure Perf where
  uravuFactor : ℚ
  treviFactor : ℚ
  dacFactor : ℚ
  greenhouseFactor : ℚ
deriving DecidableEq, Repr

/-- Temperature-to-performance memo: one ramp per offtake family. -/
def perf (s : Scenario) : Perf :=
  { uravuFactor := ramp s.dcReturnTempC 30 55 0.75 1.0
    treviFactor := ramp s.dcReturnTempC 30 45 0.85 1.0
    dacFactor := ramp s.dcReturnTempC 30 DAC_RELEASE_TEMP_C 0.5 1.0
    greenhouseFactor := ramp s.dcReturnTempC 30 60 0.9 1.0 }

/-- Phoenix per-person annual water use, memo phxM3PerPersonYear. -/
def phxM3PerPersonYear (s : Scenario) : ℚ := s.phxGpcd * GAL_TO_M3 * 365

/-- Output record of the outputs memo. -/
structure Outputs where
  treviM3PerYear : ℚ
  uravuM3PerYear : ℚ
  greenhouseHa : ℚ
  homesHeated : ℚ
  dacTco2PerYear : ℚ
  dacWaterM3PerYear : ℚ
  treviPeoplePerYear : ℚ
  uravuPeoplePerYear : ℚ
  dacPeoplePerYear : ℚ
deriving DecidableEq, Repr

/-- Physical outputs memo: per-offtake yields derived from the core and the
performance factors. -/
def outputs (s : Scenario) : Outputs :=
  let mw := (core s).recoverableHeatMW
  let treviM3PerYear := mw * TREVI_M3_PER_MW_YEAR_MID * (perf s).treviFactor
  let uravuM3PerYear := mw * URAVU_M3_PER_MW_YEAR_MID * (perf s).uravuFactor
  let homesHeated :=
    if 0 < s.mwhPerHomeYear then (core s).annualHeatMWh / s.mwhPerHomeYear else 0
  let greenhouseHa :=
    (core s).annualHeatMWh / GREENHOUSE_MWH_PER_HA_YEAR_DEFAULT * (perf s).greenhouseFactor
  let dacTco2PerYear := (core s).effectiveMWyr * DAC_TCO2_PER_MW_YEAR * (perf s).dacFactor
  let dacWaterM3PerYear := (core s).effectiveMWyr * DAC_WATER_M3_PER_MW_YEAR
  let per := phxM3PerPersonYear s
  { treviM3PerYear := treviM3PerYear
    uravuM3PerYear := uravuM3PerYear
    greenhouseHa := greenhouseHa
    homesHeated := homesHeated
    dacTco2PerYear := dacTco2PerYear
    dacWaterM3PerYear := dacWaterM3PerYear
    treviPeoplePerYear := if 0 < per then treviM3PerYear / per else 0
    uravuPeoplePerYear := if 0 < per then uravuM3PerYear / per else 0
    dacPeoplePerYear := if 0 < per then dacWaterM3PerYear / per else 0 }

/-- Bar-chart datum, the BarDatum type: label plus min, max and best value. -/
structure BarDatum where
  label : String
  best : ℚ
  min : ℚ
  max : ℚ
deriving DecidableEq, Repr

/-- Local helper mk of the co2Bars memo: best is the midpoint of the range. -/
def mkBar (label : String) (r : Range) : BarDatum :=
  { label := label, min := r.min, max := r.max, best := (r.min + r.max) / 2 }

/-- CO2 comparator table, the co2Bars memo.  In the source this memo has an
empty dependency list: it reads only the module-level range constants, so it
is a constant list, independent of every scenario input including the
selected offtake. -/
def co2Bars : List BarDatum :=
  [ mkBar "Direct Air Capture (DAC)" DAC_CO2_KT_RANGE
  , mkBar "FO Waste Water Treatment" FO_CO2_KT_RANGE
  , mkBar "Food & Beverage (EU)" FNB_CO2_KT_RANGE
  , mkBar "Atmospheric Water Capture" AWH_CO2_KT_RANGE
  , mkBar "Greenhouses & Agriculture" GREENHOUSE_CO2_KT_PER_MWYR_RANGE
  , mkBar "District Heating (proxy)" DISTRICT_HEAT_CO2_KT_RANGE ]

/-- Lower-cased character list of a string, modelling the JS toLowerCase
calls in the region lookup. -/
def lowerChars (s : String) : List Char := s.data.map Char.toLower

/-- Case-sensitive substring test on character lists, modelling the JS
String.includes method. -/
def charsIncludes (hay needle : List Char) : Bool := decide (needle <:+: hay)

/-- JS String.includes on strings (case sensitive). -/
def jsIncludes (s pat : String) : Bool := charsIncludes s.data pat.data

/-- Facility record, from the FACILITIES table entries. -/
structure Facility where
  location : String
  coolingType : String
  ambientTempC : ℚ
  electricityCostPerMWh : ℚ
  pueBaseline : ℚ
  pueMaxImprovement : ℚ
  wueBaseline : ℚ
  wueWithHR : ℚ
  scenarioMatch : String
  whrFriendliness : String
deriving DecidableEq, Repr

/-- The Ballard row of the FACILITIES record. -/
def ballardFacility : Facility :=
  { location := "Quincy, WA"
    coolingType := "Direct evaporative air"
    ambientTempC := 10
    electricityCostPerMWh := 60
    pueBaseline := 1.59
    pueMaxImprovement := 0.06
    wueBaseline := 0.359
    wueWithHR := 0
    scenarioMatch := "air cooled"
    whrFriendliness := "Low (air exhaust, low grade)" }

/-- The Osgood row of the FACILITIES record. -/
def osgoodFacility : Facility :=
  { location := "Chicago, IL"
    coolingType := "Indirect evap + mech backup"
    ambientTempC := 13
    electricityCostPerMWh := 80
    pueBaseline := 1.65
    pueMaxImprovement := 0.09
    wueBaseline := 0.45
    wueWithHR := 0.35
    scenarioMatch := "hybrid"
    whrFriendliness := "Medium" }

/-- The Fremont/Fairwater row of the FACILITIES record (dry cooled, zero
WUE baseline). -/
def fremontFacility : Facility :=
  { location := "Northern CA"
    coolingType := "Air-cooled chillers, closed-loop FW"
    ambientTempC := 15
    electricityCostPerMWh := 115
    pueBaseline := 1.72
    pueMaxImprovement := 0.04
    wueBaseline := 0
    wueWithHR := 0
    scenarioMatch := "air cooled"
    whrFriendliness := "High" }

/-- The FACILITIES record: keyed object lookup returning none for an unknown
key, as JS indexing does. -/
def FACILITIES (key : String) : Option Facility :=
  if key = "Ballard" then some ballardFacility
  else if key = "Osgood" then some osgoodFacility
  else if key = "Fremont/Fairwater" then some fremontFacility
  else none

/-- Temperature adjustment factor for the PUE/WUE improvements, the local
tempAdjustmentFactor of the dcSavings memo. -/
def tempAdjustmentFactor (dcReturnTempC : ℚ) : ℚ :=
  max 0.85 (1 - (dcReturnTempC - 25) / 100)

/-- Output record of the dcSavings memo when a facility was found.  Nullable
source fields are Option; the others are plain rationals. -/
structure DcSavings where
  pueBaseline : ℚ
  pueWithHR : ℚ
  pueReduction : Option ℚ
  wueBaseline : ℚ
  wueWithHR : ℚ
  wueReduction : Option ℚ
  erf : ℚ
  ere : Option ℚ
  annualOperationalSavings : ℚ
deriving DecidableEq, Repr

/-- Body of the dcSavings memo after its facility guard: PUE and WUE with
heat recovery, the reduction percentages (null when the baseline is zero),
the ERE heuristic and the annual operational savings.  JS truthiness tests
on nonnegative baselines coincide with positivity tests, which is how the
branches are written here. -/
def dcSavingsCore (facility : Facility) (s : Scenario) : DcSavings :=
  let erf := s.erfPercent / 100
  let pueBaseline := facility.pueBaseline
  let wueBaseline := facility.wueBaseline
  let tAdj := tempAdjustmentFactor s.dcReturnTempC
  let pueSavingsPercent := facility.pueMaxImprovement
  let pueWithHR :=
    if erf = 0 then pueBaseline
    else pueBaseline * (1 - pueSavingsPercent * erf * tAdj)
  let wueWithHR :=
    if 0 < wueBaseline then
      if erf = 0 then wueBaseline else wueBaseline * (1 - 0.15 * erf * tAdj)
    else 0
  let pueReduction :=
    if pueBaseline = 0 then none
    else some ((pueBaseline - pueWithHR) / pueBaseline * 100)
  let wueReduction :=
    if 0 < wueBaseline then some ((wueBaseline - wueWithHR) / wueBaseline * 100)
    else none
  let baseEre :=
    if jsIncludes facility.coolingType "evaporative"
        || jsIncludes facility.coolingType "Evaporative" then (0.78 : ℚ)
    else if jsIncludes facility.coolingType "evap"
        || jsIncludes facility.coolingType "mech" then 0.82
    else 0.75
  let ere := if 0 < erf then some (baseEre * erf) else none
  let annualOperationalSavings :=
    if 0 < (core s).recoverableHeatMW then
      (core s).recoverableHeatMW * erf * s.hoursPerYear * (1 / s.coolingCOP) * s.electricityCost
    else 0
  { pueBaseline := pueBaseline
    pueWithHR := pueWithHR
    pueReduction := pueReduction
    wueBaseline := wueBaseline
    wueWithHR := wueWithHR
    wueReduction := wueReduction
    erf := erf
    ere := ere
    annualOperationalSavings := annualOperationalSavings }

/-- Full dcSavings memo: none models the all-null early return taken when
the dcConfig key has no facility row. -/
def dcSavings (s : Scenario) : Option DcSavings :=
  (FACILITIES s.dcConfig).map (fun f => dcSavingsCore f s)

/-- Annual operational savings as consumed downstream: the early return of
the dcSavings memo sets this field to 0 when no facility was found. -/
def annualOperationalSavingsOf (s : Scenario) : ℚ :=
  match dcSavings s with
  | some d => d.annualOperationalSavings
  | none => 0

/-- Region row of the offtaker-costs reference table.  The source rows come
from a spreadsheet-derived JSON: locationText models the __EMPTY column and
subsidy the numeric value of the __EMPTY_9 column (none when the cell is
missing, falsy or not a finite number, in which case the source uses 0). -/
structure RegionRow where
  locationText : String
  subsidy : Option ℚ
deriving DecidableEq, Repr

/-- The offtaker-costs reference document: raw_rows plus the optional
cost_per_km field, as consumed by the offtakeCosts memo. -/
structure RefData where
  raw_rows : List RegionRow
  cost_per_km : Option ℚ
deriving DecidableEq, Repr

/-- Primary match test of findRegionRow: case-insensitive mutual substring
test between the row location and the requested region. -/
def regionRowMatches (r : RegionRow) (region : String) : Bool :=
  charsIncludes (lowerChars r.locationText) (lowerChars region)
    || charsIncludes (lowerChars region) (lowerChars r.locationText)

/-- Fallback test of findRegionRow: the row location contains the phrase
european average (after lower-casing). -/
def isEuropeanAverageRow (r : RegionRow) : Bool :=
  charsIncludes (lowerChars r.locationText) ("european average".data)

/-- The findRegionRow helper of the offtakeCosts memo: first row matching
the region case-insensitively, else the first european-average row, else
none. -/
def findRegionRow (rows : List RegionRow) (region : String) : Option RegionRow :=
  match rows.find? (fun r => regionRowMatches r region) with
  | some r => some r
  | none => rows.find? isEuropeanAverageRow

/-- Subsidy fraction extracted from the looked-up row; 0 when no row was
found or the row has no finite subsidy value. -/
def subsidyOf (rows : List RegionRow) (region : String) : ℚ :=
  match findRegionRow rows region with
  | some r => r.subsidy.getD 0
  | none => 0

/-- Output record of the offtakeCosts memo (the sourceRow field is dropped;
it is presentation only). -/
structure OfftakeCosts where
  totalCapex : ℚ
  annualOpex : ℚ
  pipingLengthKm : ℚ
deriving DecidableEq, Repr

/-- Piping cost memo offtakeCosts: subsidised base capex per MW plus the
distance cost, scaled by the recoverable heat, with opex at 3 percent of
capex.  The cost_per_km field defaults to 10000 when absent. -/
def offtakeCosts (rd : RefData) (s : Scenario) : OfftakeCosts :=
  let subsidy := subsidyOf rd.raw_rows s.country
  let baseCapexPerMW := 200000 * (1 - subsidy)
  let distanceCostPerMWperKm := rd.cost_per_km.getD 10000
  let totalCapex :=
    (baseCapexPerMW + distanceCostPerMWperKm * s.intakeDistanceKm) * (core s).recoverableHeatMW
  { totalCapex := totalCapex
    annualOpex := totalCapex * 0.03
    pipingLengthKm := s.intakeDistanceKm }

/-- Plant cost row of the OFFTAKE_PLANT_COSTS table (numeric fields only;
the unit and notes strings are presentation). -/
structure PlantCost where
  capexM : ℚ
  opexPerYear : ℚ
deriving DecidableEq, Repr

/-- The OFFTAKE_PLANT_COSTS table: capex in millions and annual opex per
offtake kind. -/
def OFFTAKE_PLANT_COSTS : Offtake → PlantCost
  | .waterTreatmentFO => { capexM := 3.06, opexPerYear := 256477 }
  | .atmosphericWater => { capexM := 1.05, opexPerYear := 126000 }
  | .dac => { capexM := 4.0, opexPerYear := 350000 }
  | .districtHeat => { capexM := 0.8, opexPerYear := 80000 }
  | .greenhouses => { capexM := 0.3, opexPerYear := 30000 }
  | .hotWater => { capexM := 0.2, opexPerYear := 20000 }
  | .foodBrewery => { capexM := 6.25, opexPerYear := 1710000 }

/-- The local annualRevenue computation of the ownershipComparison memo:
offtake-specific market revenue. -/
def annualRevenueOf (s : Scenario) : ℚ :=
  match s.offtake with
  | .dac => (outputs s).dacTco2PerYear * (s.dacMarketPrice - s.dacProcurementPrice)
  | .waterTreatmentFO => (outputs s).treviM3PerYear * (s.waterMarketPrice - s.waterProductionCost)
  | .atmosphericWater => (outputs s).uravuM3PerYear * (s.waterMarketPrice - s.waterProductionCost)
  | _ => (core s).annualHeatMWh * s.thermalEnergyPrice

/-- Model A record of the ownershipComparison memo (full ownership). -/
structure OwnModelA where
  totalCapex : ℚ
  annualOpex : ℚ
  annualRevenue : ℚ
  annualProfit : ℚ
  paybackYears : ℚ
deriving DecidableEq, Repr

/-- Model B and C record of the ownershipComparison memo: as model A plus
the third-party profit. -/
structure OwnModelShared where
  totalCapex : ℚ
  annualOpex : ℚ
  annualRevenue : ℚ
  annualProfit : ℚ
  paybackYears : ℚ
  thirdPartyProfit : ℚ
deriving DecidableEq, Repr

/-- Output record of the ownershipComparison memo. -/
structure OwnershipComparison where
  heatExchangerCapex : ℚ
  pipingCapex : ℚ
  offtakePlantCapex : ℚ
  modelA : OwnModelA
  modelB : OwnModelShared
  modelC : OwnModelShared
deriving DecidableEq, Repr

/-- The ownershipComparison memo: three financial structures built from the
same capex, opex, savings and revenue primitives.  The payback fields are
the raw quotients of the source; JS would return Infinity or NaN at a zero
denominator where rational division returns 0, so theorems about payback
avoid the zero-denominator case. -/
def ownershipComparison (rd : RefData) (s : Scenario) : OwnershipComparison :=
  let plantCosts := OFFTAKE_PLANT_COSTS s.offtake
  let heatExchangerCapex := (core s).recoverableHeatMW * s.whrCapitalCostPerMW * 1000000
  let pipingCapex := |(offtakeCosts rd s).totalCapex|
  let offtakePlantCapex := plantCosts.capexM * 1000000
  let offtakePlantOpex := plantCosts.opexPerYear
  let annualRevenue := annualRevenueOf s
  let savings := annualOperationalSavingsOf s
  let modelA : OwnModelA :=
    { totalCapex := heatExchangerCapex + pipingCapex + offtakePlantCapex
      annualOpex := offtakePlantOpex
      annualRevenue := savings + annualRevenue
      annualProfit := savings + annualRevenue - offtakePlantOpex
      paybackYears := (heatExchangerCapex + pipingCapex + offtakePlantCapex) /
        (savings + annualRevenue - offtakePlantOpex) }
  let annualTippingFee := (core s).annualHeatMWh * s.tippingFeePerMWh
  let modelB : OwnModelShared :=
    { totalCapex := heatExchangerCapex
      annualOpex := 0
      annualRevenue := savings + annualTippingFee
      annualProfit := savings + annualTippingFee
      paybackYears := heatExchangerCapex / (savings + annualTippingFee)
      thirdPartyProfit := annualRevenue - offtakePlantOpex - annualTippingFee }
  let msRevenueShare := annualRevenue * (s.revenueSharePercent / 100)
  let modelC : OwnModelShared :=
    { totalCapex := heatExchangerCapex
      annualOpex := 0
      annualRevenue := savings + msRevenueShare
      annualProfit := savings + msRevenueShare
      paybackYears := heatExchangerCapex / (savings + msRevenueShare)
      thirdPartyProfit := annualRevenue * (1 - s.revenueSharePercent / 100) - offtakePlantOpex }
  { heatExchangerCapex := heatExchangerCapex
    pipingCapex := pipingCapex
    offtakePlantCapex := offtakePlantCapex
    modelA := modelA
    modelB := modelB
    modelC := modelC }

/-! Helper lemmas about the ramp primitive, shared by several results. -/

/-- The ramp output stays between its two endpoint values. -/
lemma ramp_bounds (x t0 t1 v0 v1 : ℚ) (_hx : t0 < t1) (hy : v0 ≤ v1) :
    v0 ≤ ramp x t0 t1 v0 v1 ∧ ramp x t0 t1 v0 v1 ≤ v1 := by
  unfold ramp
  split_ifs with h1 h2
  · exact ⟨le_refl _, hy⟩
  · exact ⟨hy, le_refl _⟩
  · push_neg at h1 h2
    have hd : (0 : ℚ) < t1 - t0 := by linarith
    have hf0 : 0 ≤ (x - t0) / (t1 - t0) := div_nonneg (by linarith) hd.le
    have hf1 : (x - t0) / (t1 - t0) ≤ 1 := by
      rw [div_le_one hd]; linarith
    constructor
    · have := mul_nonneg hf0 (sub_nonneg.mpr hy)
      linarith
    · have := mul_le_of_le_one_left (sub_nonneg.mpr hy) hf1
      linarith

/-- The ramp below the lower temperature bound is the lower value. -/
lemma ramp_left (x t0 t1 v0 v1 : ℚ) (h : x ≤ t0) : ramp x t0 t1 v0 v1 = v0 := by
  unfold ramp; rw [if_pos h]

/-- The ramp above the upper temperature bound is the upper value. -/
lemma ramp_right (x t0 t1 v0 v1 : ℚ) (hx : t0 < t1) (h : t1 ≤ x) :
    ramp x t0 t1 v0 v1 = v1 := by
  unfold ramp; rw [if_neg (by linarith), if_pos h]

/-- The ramp strictly between the bounds is the linear interpolation. -/
lemma ramp_mid (x t0 t1 v0 v1 : ℚ) (h0 : t0 < x) (h1 : x < t1) :
    ramp x t0 t1 v0 v1 = v0 + (x - t0) / (t1 - t0) * (v1 - v0) := by
  unfold ramp; rw [if_neg (by linarith), if_neg (by linarith)]

/-- The ramp is monotone non-decreasing in its temperature argument. -/
lemma ramp_mono (t0 t1 v0 v1 : ℚ) (hx : t0 < t1) (hy : v0 ≤ v1) {a b : ℚ}
    (hab : a ≤ b) : ramp a t0 t1 v0 v1 ≤ ramp b t0 t1 v0 v1 := by
  rcases le_or_lt a t0 with ha | ha
  · rw [ramp_left a t0 t1 v0 v1 ha]
    exact (ramp_bounds b t0 t1 v0 v1 hx hy).1
  · rcases le_or_lt t1 a with ha2 | ha2
    · rw [ramp_right a t0 t1 v0 v1 hx ha2, ramp_right b t0 t1 v0 v1 hx (ha2.trans hab)]
    · rcases le_or_lt t1 b with hb2 | hb2
      · rw [ramp_right b t0 t1 v0 v1 hx hb2]
        exact (ramp_bounds a t0 t1 v0 v1 hx hy).2
      · have hd : (0 : ℚ) < t1 - t0 := by linarith
        rw [ramp_mid a t0 t1 v0 v1 ha ha2,
          ramp_mid b t0 t1 v0 v1 (ha.trans_le hab) hb2]
        have hff : (a - t0) / (t1 - t0) ≤ (b - t0) / (t1 - t0) :=
          div_le_div_of_nonneg_right (by linarith) hd.le
        have := mul_le_mul_of_nonneg_right hff (sub_nonneg.mpr hy)
        linarith

/-- C3: the ramp primitive is monotone in temperature, clamped within the
two endpoint values, equal to the endpoint value on each side of the
temperature window, and the exact linear interpolation strictly inside it. -/
theorem C3_ramp_props (x t0 t1 v0 v1 a b : ℚ) (hx : t0 < t1) (hy : v0 ≤ v1) :
    (a ≤ b → ramp a t0 t1 v0 v1 ≤ ramp b t0 t1 v0 v1) ∧
    (v0 ≤ ramp x t0 t1 v0 v1 ∧ ramp x t0 t1 v0 v1 ≤ v1) ∧
    (x ≤ t0 → ramp x t0 t1 v0 v1 = v0) ∧
    (t1 ≤ x → ramp x t0 t1 v0 v1 = v1) ∧
    (t0 < x → x < t1 → ramp x t0 t1 v0 v1 = v0 + (x - t0) / (t1 - t0) * (v1 - v0)) :=
  ⟨fun hab => ramp_mono t0 t1 v0 v1 hx hy hab,
   ramp_bounds x t0 t1 v0 v1 hx hy,
   fun h => ramp_left x t0 t1 v0 v1 h,
   fun h => ramp_right x t0 t1 v0 v1 hx h,
   fun h0 h1 => ramp_mid x t0 t1 v0 v1 h0 h1⟩

/-- C10: the supply temperature is derived as dcReturnTempC - 12, so the
thermal core delta-T is the constant 12 for every scenario; the max(1, x)
floor is never the active branch. -/
theorem C10_deltaT_constant (s : Scenario) :
    dcSupplyTempC s = s.dcReturnTempC - 12 ∧ (core s).dcDeltaT = 12 := by
  refine ⟨rfl, ?_⟩
  show max 1 (s.dcReturnTempC - dcSupplyTempC s) = 12
  rw [dcSupplyTempC, sub_sub_cancel]
  norm_num

/-- Concrete scenario of the spec: 50 MW IT load, 10 percent recovery,
full-year hours, DAC offtake at 65 degrees return temperature. -/
def dacScenario : Scenario :=
  { baseScenario with
    offtake := .dac
    itLoadMW := 50
    recoveryPct := 10
    hoursPerYear := 8760
    dcReturnTempC := 65 }

/-- C5: in the 50 MW, 10 percent, 8760 h, 65 degree DAC scenario, the
recoverable heat and effective MW-year are both 5, the DAC ramp sits at its
ceiling 1.0, and the annual capture is 5 x 4550 x 1.0 = 22750 tCO2. -/
theorem C5_dac_scenario :
    (core dacScenario).recoverableHeatMW = 5 ∧
    (core dacScenario).effectiveMWyr = 5 ∧
    (perf dacScenario).dacFactor = 1 ∧
    (outputs dacScenario).dacTco2PerYear = 5 * 4550 * 1 := by
  have h1 : (core dacScenario).recoverableHeatMW = 5 := by
    show dacScenario.itLoadMW * (clamp dacScenario.recoveryPct 0 100 / 100) = 5
    norm_num [dacScenario, baseScenario, clamp]
  have h2 : (core dacScenario).effectiveMWyr = 5 := by
    show dacScenario.itLoadMW * (clamp dacScenario.recoveryPct 0 100 / 100)
      * (dacScenario.hoursPerYear / 8760) = 5
    norm_num [dacScenario, baseScenario, clamp]
  have h3 : (perf dacScenario).dacFactor = 1 := by
    show ramp dacScenario.dcReturnTempC 30 DAC_RELEASE_TEMP_C 0.5 1.0 = 1
    rw [ramp_right _ _ _ _ _ (by norm_num [DAC_RELEASE_TEMP_C, dacScenario, baseScenario])
      (by norm_num [DAC_RELEASE_TEMP_C, dacScenario, baseScenario])]
    norm_num
  have h4 : (outputs dacScenario).dacTco2PerYear = 5 * 4550 * 1 := by
    show (core dacScenario).effectiveMWyr * DAC_TCO2_PER_MW_YEAR * (perf dacScenario).dacFactor
      = 5 * 4550 * 1
    rw [h2, h3, DAC_TCO2_PER_MW_YEAR]
  exact ⟨h1, h2, h3, h4⟩

/-- C9: the tipping fee and the revenue share are pure transfers.  For every
scenario and reference data, the data-center profit plus the third-party
profit of model B equals the model A profit, and likewise for model C. -/
theorem C9_profit_conservation (rd : RefData) (s : Scenario) :
    (ownershipComparison rd s).modelB.annualProfit
        + (ownershipComparison rd s).modelB.thirdPartyProfit
      = (ownershipComparison rd s).modelA.annualProfit ∧
    (ownershipComparison rd s).modelC.annualProfit
        + (ownershipComparison rd s).modelC.thirdPartyProfit
      = (ownershipComparison rd s).modelA.annualProfit := by
  constructor <;> (simp only [ownershipComparison]; ring)

/-- C4: the temperature adjustment factor is max(0.85, 1 - (t - 25)/100),
and for every facility and ERF in the unit range the PUE with heat recovery
is pueBaseline x (1 - pueMaxImprovement x erf x tempAdjustmentFactor),
reducing to the baseline exactly when the ERF is zero. -/
theorem C4_pue_formula (f : Facility) (s : Scenario)
    (_h0 : 0 ≤ s.erfPercent) (_h1 : s.erfPercent ≤ 100) :
    tempAdjustmentFactor s.dcReturnTempC = max 0.85 (1 - (s.dcReturnTempC - 25) / 100) ∧
    (dcSavingsCore f s).pueWithHR
      = f.pueBaseline
          * (1 - f.pueMaxImprovement * (s.erfPercent / 100) * tempAdjustmentFactor s.dcReturnTempC) ∧
    (s.erfPercent = 0 → (dcSavingsCore f s).pueWithHR = f.pueBaseline) := by
  refine ⟨rfl, ?_, ?_⟩
  · show (if s.erfPercent / 100 = 0 then f.pueBaseline
        else f.pueBaseline
          * (1 - f.pueMaxImprovement * (s.erfPercent / 100) * tempAdjustmentFactor s.dcReturnTempC))
      = f.pueBaseline
          * (1 - f.pueMaxImprovement * (s.erfPercent / 100) * tempAdjustmentFactor s.dcReturnTempC)
    by_cases h : s.erfPercent / 100 = 0
    · rw [if_pos h, h]; ring
    · rw [if_neg h]
  · intro h
    show (if s.erfPercent / 100 = 0 then f.pueBaseline
        else f.pueBaseline
          * (1 - f.pueMaxImprovement * (s.erfPercent / 100) * tempAdjustmentFactor s.dcReturnTempC))
      = f.pueBaseline
    rw [if_pos (by rw [h]; norm_num)]

/-- Witness for C4 at the Ballard facility and the default scenario. -/
theorem C4_witness :
    (0 ≤ baseScenario.erfPercent ∧ baseScenario.erfPercent ≤ 100) ∧
    (dcSavingsCore ballardFacility baseScenario).pueWithHR
      = ballardFacility.pueBaseline
          * (1 - ballardFacility.pueMaxImprovement * (baseScenario.erfPercent / 100)
              * tempAdjustmentFactor baseScenario.dcReturnTempC) :=
  ⟨⟨by norm_num [baseScenario], by norm_num [baseScenario]⟩,
   (C4_pue_formula ballardFacility baseScenario (by norm_num [baseScenario])
     (by norm_num [baseScenario])).2.1⟩

/-- C7: a dry-cooled facility (zero WUE baseline) keeps WUE at 0 with the
undefined reduction sentinel for every ERF, while a facility with positive
WUE baseline gets the 15 percent per 100 percent ERF reduction scaled by
the temperature adjustment factor. -/
theorem C7_wue_dry_and_wet (f : Facility) (s : Scenario)
    (_h0 : 0 ≤ s.erfPercent) (_h1 : s.erfPercent ≤ 100) :
    (f.wueBaseline = 0 →
      (dcSavingsCore f s).wueWithHR = 0 ∧ (dcSavingsCore f s).wueReduction = none) ∧
    (0 < f.wueBaseline →
      (dcSavingsCore f s).wueWithHR
        = f.wueBaseline
            * (1 - 0.15 * (s.erfPercent / 100) * tempAdjustmentFactor s.dcReturnTempC)) := by
  constructor
  · intro h
    constructor
    · show (if 0 < f.wueBaseline then
          if s.erfPercent / 100 = 0 then f.wueBaseline
          else f.wueBaseline * (1 - 0.15 * (s.erfPercent / 100) * tempAdjustmentFactor s.dcReturnTempC)
        else 0) = 0
      rw [if_neg (by rw [h]; exact lt_irrefl 0)]
    · show (if 0 < f.wueBaseline then
          some ((f.wueBaseline - (dcSavingsCore f s).wueWithHR) / f.wueBaseline * 100)
        else none) = none
      rw [if_neg (by rw [h]; exact lt_irrefl 0)]
  · intro h
    show (if 0 < f.wueBaseline then
        if s.erfPercent / 100 = 0 then f.wueBaseline
        else f.wueBaseline * (1 - 0.15 * (s.erfPercent / 100) * tempAdjustmentFactor s.dcReturnTempC)
      else 0)
      = f.wueBaseline * (1 - 0.15 * (s.erfPercent / 100) * tempAdjustmentFactor s.dcReturnTempC)
    rw [if_pos h]
    by_cases he : s.erfPercent / 100 = 0
    · rw [if_pos he, he]; ring
    · rw [if_neg he]

/-- Witness for C7 at the dry-cooled Fremont facility and the default
scenario, exercising the zero-baseline branch. -/
theorem C7_witness :
    (0 ≤ baseScenario.erfPercent ∧ baseScenario.erfPercent ≤ 100) ∧
    fremontFacility.wueBaseline = 0 ∧
    (dcSavingsCore fremontFacility baseScenario).wueWithHR = 0 ∧
    (dcSavingsCore fremontFacility baseScenario).wueReduction = none := by
  have h := (C7_wue_dry_and_wet fremontFacility baseScenario (by norm_num [baseScenario])
    (by norm_num [baseScenario])).1 (by norm_num [fremontFacility])
  exact ⟨⟨by norm_num [baseScenario], by norm_num [baseScenario]⟩,
    by norm_num [fremontFacility], h.1, h.2⟩

/-- Witness for C3 at the DAC ramp tuple (30 to 65 degrees, 0.5 to 1.0)
with concrete temperatures. -/
theorem C3_witness :
    ((30 : ℚ) < 65 ∧ (0.5 : ℚ) ≤ 1) ∧
    ((35 ≤ (50 : ℚ) → ramp 35 30 65 0.5 1 ≤ ramp 50 30 65 0.5 1) ∧
     (0.5 ≤ ramp 40 30 65 0.5 1 ∧ ramp 40 30 65 0.5 1 ≤ 1) ∧
     ((40 : ℚ) ≤ 30 → ramp 40 30 65 0.5 1 = 0.5) ∧
     ((65 : ℚ) ≤ 40 → ramp 40 30 65 0.5 1 = 1) ∧
     ((30 : ℚ) < 40 → (40 : ℚ) < 65 →
       ramp 40 30 65 0.5 1 = 0.5 + (40 - 30) / (65 - 30) * (1 - 0.5))) :=
  ⟨⟨by norm_num, by norm_num⟩,
   C3_ramp_props 40 30 65 0.5 1 35 50 (by norm_num) (by norm_num)⟩

/-- C6 (amended): for nonnegative IT load the recoverable heat lies in
[0, itLoadMW]; a clamped recovery of 0 forces 0 and a clamped recovery of
100 forces itLoadMW; the two biconditionals hold whenever the IT load is
strictly positive (they fail at itLoadMW = 0, see the counterexample). -/
theorem C6_recoverable_bounds (s : Scenario) (h : 0 ≤ s.itLoadMW) :
    (0 ≤ (core s).recoverableHeatMW ∧ (core s).recoverableHeatMW ≤ s.itLoadMW) ∧
    (clamp s.recoveryPct 0 100 = 0 → (core s).recoverableHeatMW = 0) ∧
    (clamp s.recoveryPct 0 100 = 100 → (core s).recoverableHeatMW = s.itLoadMW) ∧
    (0 < s.itLoadMW →
      (((core s).recoverableHeatMW = 0 ↔ clamp s.recoveryPct 0 100 = 0) ∧
       ((core s).recoverableHeatMW = s.itLoadMW ↔ clamp s.recoveryPct 0 100 = 100))) := by
  have hshow : (core s).recoverableHeatMW = s.itLoadMW * (clamp s.recoveryPct 0 100 / 100) := rfl
  have hc0 : 0 ≤ clamp s.recoveryPct 0 100 :=
    le_min (by norm_num) (le_max_left 0 s.recoveryPct)
  have hc100 : clamp s.recoveryPct 0 100 ≤ 100 := min_le_left _ _
  refine ⟨⟨?_, ?_⟩, ?_, ?_, ?_⟩
  · rw [hshow]
    exact mul_nonneg h (div_nonneg hc0 (by norm_num))
  · rw [hshow]
    calc s.itLoadMW * (clamp s.recoveryPct 0 100 / 100)
        ≤ s.itLoadMW * 1 :=
          mul_le_mul_of_nonneg_left ((div_le_one (by norm_num)).mpr hc100) h
      _ = s.itLoadMW := mul_one _
  · intro h0
    rw [hshow, h0]
    norm_num
  · intro h100
    rw [hshow, h100]
    norm_num
  · intro hpos
    constructor
    · rw [hshow]
      constructor
      · intro he
        rcases mul_eq_zero.mp he with h' | h'
        · exact absurd h' (ne_of_gt hpos)
        · rcases div_eq_zero_iff.mp h' with h'' | h''
          · exact h''
          · norm_num at h''
      · intro h0
        rw [h0]
        norm_num
    · rw [hshow]
      constructor
      · intro he
        have hmul : s.itLoadMW * (clamp s.recoveryPct 0 100 / 100) = s.itLoadMW * 1 := by
          rw [he, mul_one]
        have h1 := mul_left_cancel₀ (ne_of_gt hpos) hmul
        field_simp at h1
        exact h1
      · intro h100
        rw [h100]
        norm_num

/-- Witness for C6 at the default scenario (200 MW load, 10 percent). -/
theorem C6_witness :
    0 ≤ baseScenario.itLoadMW ∧
    ((0 ≤ (core baseScenario).recoverableHeatMW ∧
      (core baseScenario).recoverableHeatMW ≤ baseScenario.itLoadMW) ∧
     (clamp baseScenario.recoveryPct 0 100 = 0 → (core baseScenario).recoverableHeatMW = 0) ∧
     (clamp baseScenario.recoveryPct 0 100 = 100 →
       (core baseScenario).recoverableHeatMW = baseScenario.itLoadMW) ∧
     (0 < baseScenario.itLoadMW →
       (((core baseScenario).recoverableHeatMW = 0 ↔ clamp baseScenario.recoveryPct 0 100 = 0) ∧
        ((core baseScenario).recoverableHeatMW = baseScenario.itLoadMW ↔
          clamp baseScenario.recoveryPct 0 100 = 100)))) :=
  ⟨by norm_num [baseScenario],
   C6_recoverable_bounds baseScenario (by norm_num [baseScenario])⟩

/-- Scenario with zero IT load and 50 percent recovery, on which both
"exactly when" clauses of C6 fail. -/
def zeroLoadScenario : Scenario :=
  { baseScenario with itLoadMW := 0, recoveryPct := 50 }

/-- Counterexample for C6 as stated: with itLoadMW = 0 and recoveryPct = 50
the recoverable heat is 0 and equals itLoadMW although the clamped recovery
is neither 0 nor 100, so neither equality characterises the boundary. -/
theorem C6_counterexample :
    0 ≤ zeroLoadScenario.itLoadMW ∧
    (core zeroLoadScenario).recoverableHeatMW = 0 ∧
    clamp zeroLoadScenario.recoveryPct 0 100 ≠ 0 ∧
    (core zeroLoadScenario).recoverableHeatMW = zeroLoadScenario.itLoadMW ∧
    clamp zeroLoadScenario.recoveryPct 0 100 ≠ 100 := by
  have h : (core zeroLoadScenario).recoverableHeatMW
      = zeroLoadScenario.itLoadMW * (clamp zeroLoadScenario.recoveryPct 0 100 / 100) := rfl
  refine ⟨by norm_num [zeroLoadScenario, baseScenario], ?_, ?_, ?_, ?_⟩
  · rw [h]
    norm_num [zeroLoadScenario, baseScenario]
  · norm_num [zeroLoadScenario, baseScenario, clamp]
  · rw [h]
    norm_num [zeroLoadScenario, baseScenario]
  · norm_num [zeroLoadScenario, baseScenario, clamp]

/-- C2 (amended): the CO2 comparator table has exactly six entries (the
hotWater offtake has none), the best value of every entry is the midpoint of
its min and max, and the min and max columns are the raw per-MW-year reference
ranges, not scaled by the recoverable heat of the scenario; DAC appears as
the range 4.0 to 5.0 rather than as an at-scale constant.  Independence
from the selected offtake is structural: co2Bars takes no scenario input. -/
theorem C2_co2Bars_table :
    co2Bars.length = 6 ∧
    (∀ b ∈ co2Bars, b.best = (b.min + b.max) / 2) ∧
    co2Bars.map BarDatum.min
      = [DAC_CO2_KT_RANGE.min, FO_CO2_KT_RANGE.min, FNB_CO2_KT_RANGE.min,
         AWH_CO2_KT_RANGE.min, GREENHOUSE_CO2_KT_PER_MWYR_RANGE.min,
         DISTRICT_HEAT_CO2_KT_RANGE.min] ∧
    co2Bars.map BarDatum.max
      = [DAC_CO2_KT_RANGE.max, FO_CO2_KT_RANGE.max, FNB_CO2_KT_RANGE.max,
         AWH_CO2_KT_RANGE.max, GREENHOUSE_CO2_KT_PER_MWYR_RANGE.max,
         DISTRICT_HEAT_CO2_KT_RANGE.max] := by
  refine ⟨rfl, ?_, rfl, rfl⟩
  intro b hb
  fin_cases hb <;> rfl

/-- Witness for C2 at the first table entry (the DAC row). -/
theorem C2_witness :
    mkBar "Direct Air Capture (DAC)" DAC_CO2_KT_RANGE ∈ co2Bars ∧
    (mkBar "Direct Air Capture (DAC)" DAC_CO2_KT_RANGE).best
      = ((mkBar "Direct Air Capture (DAC)" DAC_CO2_KT_RANGE).min
          + (mkBar "Direct Air Capture (DAC)" DAC_CO2_KT_RANGE).max) / 2 :=
  ⟨by simp [co2Bars],
   C2_co2Bars_table.2.1 _ (by simp [co2Bars])⟩

/-- Counterexample for C2 as stated: at the default scenario the
recoverable heat is 20 MW, yet the DAC row of the table still holds the raw
per-MW-year minimum 4, not the scaled value 4 x 20 = 80; and the table has
six rows although there are seven offtake kinds. -/
theorem C2_counterexample :
    (core baseScenario).recoverableHeatMW = 20 ∧
    co2Bars.head?.map BarDatum.min = some DAC_CO2_KT_RANGE.min ∧
    DAC_CO2_KT_RANGE.min * (core baseScenario).recoverableHeatMW = 80 ∧
    co2Bars.head?.map BarDatum.min
      ≠ some (DAC_CO2_KT_RANGE.min * (core baseScenario).recoverableHeatMW) ∧
    co2Bars.length = 6 := by
  have h : (core baseScenario).recoverableHeatMW = 20 := by
    show baseScenario.itLoadMW * (clamp baseScenario.recoveryPct 0 100 / 100) = 20
    norm_num [baseScenario, clamp]
  refine ⟨h, rfl, ?_, ?_, rfl⟩
  · rw [h]
    norm_num [DAC_CO2_KT_RANGE]
  · rw [h]
    norm_num [co2Bars, mkBar, DAC_CO2_KT_RANGE]

/-- C8: piping capex is the subsidised base cost per MW plus the distance
cost, scaled by the recoverable heat, and piping opex is 3 percent of the
capex; the subsidy comes from the case-insensitive region lookup, which
falls back to the european-average row when no row matches the region and
contributes 0 when no row is found at all. -/
theorem C8_piping_cost (rd : RefData) (s : Scenario) :
    (offtakeCosts rd s).totalCapex
      = (200000 * (1 - subsidyOf rd.raw_rows s.country)
          + rd.cost_per_km.getD 10000 * s.intakeDistanceKm) * (core s).recoverableHeatMW ∧
    (offtakeCosts rd s).annualOpex = 0.03 * (offtakeCosts rd s).totalCapex ∧
    ((rd.raw_rows.all fun r => !regionRowMatches r s.country) = true →
      findRegionRow rd.raw_rows s.country = rd.raw_rows.find? isEuropeanAverageRow) ∧
    (findRegionRow rd.raw_rows s.country = none → subsidyOf rd.raw_rows s.country = 0) := by
  refine ⟨rfl, ?_, ?_, ?_⟩
  · show (offtakeCosts rd s).totalCapex * 0.03 = 0.03 * (offtakeCosts rd s).totalCapex
    exact mul_comm _ _
  · intro hall
    have hnone : rd.raw_rows.find? (fun r => regionRowMatches r s.country) = none := by
      rw [List.find?_eq_none]
      intro a ha
      have h := List.all_eq_true.mp hall a ha
      simp only [Bool.not_eq_true'] at h
      simp [h]
    unfold findRegionRow
    rw [hnone]
  · intro hnone
    unfold subsidyOf
    rw [hnone]

/-- Reference data used to witness C8: one German row with a 30 percent
subsidy and a european-average row with a 10 percent subsidy. -/
def exampleRefData : RefData :=
  { raw_rows :=
      [ { locationText := "Germany", subsidy := some 0.3 }
      , { locationText := "European average", subsidy := some 0.1 } ]
    cost_per_km := some 12000 }

/-- Scenario used to witness C8: a region name matching no row, forcing
the european-average fallback. -/
def franceScenario : Scenario :=
  { baseScenario with country := "France", intakeDistanceKm := 2 }

/-- Witness for C8: the fallback row supplies the 10 percent subsidy and
the capex evaluates to (200000 x 0.9 + 12000 x 2) x 20 = 4080000, with
opex at 3 percent. -/
theorem C8_witness :
    ((offtakeCosts exampleRefData franceScenario).totalCapex
      = (200000 * (1 - subsidyOf exampleRefData.raw_rows franceScenario.country)
          + exampleRefData.cost_per_km.getD 10000 * franceScenario.intakeDistanceKm)
          * (core franceScenario).recoverableHeatMW ∧
     (offtakeCosts exampleRefData franceScenario).annualOpex
      = 0.03 * (offtakeCosts exampleRefData franceScenario).totalCapex ∧
     ((exampleRefData.raw_rows.all fun r => !regionRowMatches r franceScenario.country) = true →
       findRegionRow exampleRefData.raw_rows franceScenario.country
        = exampleRefData.raw_rows.find? isEuropeanAverageRow) ∧
     (findRegionRow exampleRefData.raw_rows franceScenario.country = none →
       subsidyOf exampleRefData.raw_rows franceScenario.country = 0)) ∧
    subsidyOf exampleRefData.raw_rows franceScenario.country = 0.1 ∧
    (offtakeCosts exampleRefData franceScenario).totalCapex = 4080000 := by
  have hsub : subsidyOf exampleRefData.raw_rows franceScenario.country = 0.1 := by
    have hrow : findRegionRow exampleRefData.raw_rows franceScenario.country
        = some { locationText := "European average", subsidy := some 0.1 } := by
      unfold findRegionRow
      have h1 : exampleRefData.raw_rows.find?
          (fun r => regionRowMatches r franceScenario.country) = none := by decide
      rw [h1]
      show exampleRefData.raw_rows.find? isEuropeanAverageRow
          = some { locationText := "European average", subsidy := some 0.1 }
      rfl
    unfold subsidyOf
    rw [hrow]
    rfl
  refine ⟨C8_piping_cost exampleRefData franceScenario, hsub, ?_⟩
  have h1 := (C8_piping_cost exampleRefData franceScenario).1
  rw [h1, hsub]
  have hmw : (core franceScenario).recoverableHeatMW = 20 := by
    show franceScenario.itLoadMW * (clamp franceScenario.recoveryPct 0 100 / 100) = 20
    norm_num [franceScenario, baseScenario, clamp]
  rw [hmw]
  show (200000 * (1 - 0.1) + (12000 : ℚ) * franceScenario.intakeDistanceKm) * 20 = 4080000
  norm_num [franceScenario, baseScenario]

/-- C1 (amended): every ownership model computes payback as the raw
quotient capex / (revenue - opex), with no undefined sentinel; whenever the
net annual benefit is strictly negative and the capex is positive, the
surfaced payback value is negative (and a zero net benefit with positive
capex yields a non-finite JS value, outside this rational model). -/
theorem C1_payback_raw_quotient (rd : RefData) (s : Scenario) :
    ((ownershipComparison rd s).modelA.paybackYears
      = (ownershipComparison rd s).modelA.totalCapex
        / ((ownershipComparison rd s).modelA.annualRevenue
            - (ownershipComparison rd s).modelA.annualOpex)) ∧
    ((ownershipComparison rd s).modelB.paybackYears
      = (ownershipComparison rd s).modelB.totalCapex
        / ((ownershipComparison rd s).modelB.annualRevenue
            - (ownershipComparison rd s).modelB.annualOpex)) ∧
    ((ownershipComparison rd s).modelC.paybackYears
      = (ownershipComparison rd s).modelC.totalCapex
        / ((ownershipComparison rd s).modelC.annualRevenue
            - (ownershipComparison rd s).modelC.annualOpex)) ∧
    ((ownershipComparison rd s).modelA.annualRevenue
        - (ownershipComparison rd s).modelA.annualOpex < 0 →
      0 < (ownershipComparison rd s).modelA.totalCapex →
      (ownershipComparison rd s).modelA.paybackYears < 0) ∧
    ((ownershipComparison rd s).modelB.annualRevenue
        - (ownershipComparison rd s).modelB.annualOpex < 0 →
      0 < (ownershipComparison rd s).modelB.totalCapex →
      (ownershipComparison rd s).modelB.paybackYears < 0) ∧
    ((ownershipComparison rd s).modelC.annualRevenue
        - (ownershipComparison rd s).modelC.annualOpex < 0 →
      0 < (ownershipComparison rd s).modelC.totalCapex →
      (ownershipComparison rd s).modelC.paybackYears < 0) := by
  have hA : (ownershipComparison rd s).modelA.paybackYears
      = (ownershipComparison rd s).modelA.totalCapex
        / ((ownershipComparison rd s).modelA.annualRevenue
            - (ownershipComparison rd s).modelA.annualOpex) := rfl
  have hB0 : (ownershipComparison rd s).modelB.annualOpex = 0 := rfl
  have hC0 : (ownershipComparison rd s).modelC.annualOpex = 0 := rfl
  have hB : (ownershipComparison rd s).modelB.paybackYears
      = (ownershipComparison rd s).modelB.totalCapex
        / ((ownershipComparison rd s).modelB.annualRevenue
            - (ownershipComparison rd s).modelB.annualOpex) := by
    rw [hB0, sub_zero]
    rfl
  have hC : (ownershipComparison rd s).modelC.paybackYears
      = (ownershipComparison rd s).modelC.totalCapex
        / ((ownershipComparison rd s).modelC.annualRevenue
            - (ownershipComparison rd s).modelC.annualOpex) := by
    rw [hC0, sub_zero]
    rfl
  refine ⟨hA, hB, hC, ?_, ?_, ?_⟩
  · intro h1 h2
    rw [hA]
    exact div_neg_of_pos_of_neg h2 h1
  · intro h1 h2
    rw [hB]
    exact div_neg_of_pos_of_neg h2 h1
  · intro h1 h2
    rw [hC]
    exact div_neg_of_pos_of_neg h2 h1

/-- Empty reference data: no region rows and no cost_per_km field. -/
def emptyRefData : RefData := { raw_rows := [], cost_per_km := none }

/-- Scenario with zero IT load, on which model A has negative net benefit. -/
def zeroHeatScenario : Scenario := { baseScenario with itLoadMW := 0 }

/-- Counterexample for C1 as stated: with zero IT load and the DAC offtake,
model A has revenue minus opex equal to -350000 and its payback surfaces as
the negative number -80/7 (rendered by toFixed, not replaced by any
"no payback" sentinel). -/
theorem C1_counterexample :
    (ownershipComparison emptyRefData zeroHeatScenario).modelA.annualRevenue
        - (ownershipComparison emptyRefData zeroHeatScenario).modelA.annualOpex = -350000 ∧
    (ownershipComparison emptyRefData zeroHeatScenario).modelA.paybackYears = -(80 / 7) ∧
    (ownershipComparison emptyRefData zeroHeatScenario).modelA.paybackYears < 0 := by
  have hmw : (core zeroHeatScenario).recoverableHeatMW = 0 := by
    show zeroHeatScenario.itLoadMW * (clamp zeroHeatScenario.recoveryPct 0 100 / 100) = 0
    norm_num [zeroHeatScenario, baseScenario]
  have heff : (core zeroHeatScenario).effectiveMWyr = 0 := by
    show (core zeroHeatScenario).recoverableHeatMW * (zeroHeatScenario.hoursPerYear / 8760) = 0
    rw [hmw, zero_mul]
  have hout : (outputs zeroHeatScenario).dacTco2PerYear = 0 := by
    show (core zeroHeatScenario).effectiveMWyr * DAC_TCO2_PER_MW_YEAR
        * (perf zeroHeatScenario).dacFactor = 0
    rw [heff, zero_mul, zero_mul]
  have hrev : annualRevenueOf zeroHeatScenario = 0 := by
    show (outputs zeroHeatScenario).dacTco2PerYear
        * (zeroHeatScenario.dacMarketPrice - zeroHeatScenario.dacProcurementPrice) = 0
    rw [hout, zero_mul]
  have hsav : annualOperationalSavingsOf zeroHeatScenario = 0 := by
    have hdc : annualOperationalSavingsOf zeroHeatScenario
        = (dcSavingsCore ballardFacility zeroHeatScenario).annualOperationalSavings := rfl
    have hval : (dcSavingsCore ballardFacility zeroHeatScenario).annualOperationalSavings
        = if 0 < (core zeroHeatScenario).recoverableHeatMW then
            (core zeroHeatScenario).recoverableHeatMW * (zeroHeatScenario.erfPercent / 100)
              * zeroHeatScenario.hoursPerYear * (1 / zeroHeatScenario.coolingCOP)
              * zeroHeatScenario.electricityCost
          else 0 := rfl
    rw [hdc, hval, hmw]
    norm_num
  have hpip : (offtakeCosts emptyRefData zeroHeatScenario).totalCapex = 0 := by
    show (200000 * (1 - subsidyOf emptyRefData.raw_rows zeroHeatScenario.country)
        + emptyRefData.cost_per_km.getD 10000 * zeroHeatScenario.intakeDistanceKm)
        * (core zeroHeatScenario).recoverableHeatMW = 0
    rw [hmw, mul_zero]
  have hhx : (core zeroHeatScenario).recoverableHeatMW
      * zeroHeatScenario.whrCapitalCostPerMW * 1000000 = 0 := by
    rw [hmw, zero_mul, zero_mul]
  have hplant : OFFTAKE_PLANT_COSTS zeroHeatScenario.offtake
      = { capexM := 4.0, opexPerYear := 350000 } := rfl
  have hArev : (ownershipComparison emptyRefData zeroHeatScenario).modelA.annualRevenue
      = annualOperationalSavingsOf zeroHeatScenario + annualRevenueOf zeroHeatScenario := rfl
  have hAopex : (ownershipComparison emptyRefData zeroHeatScenario).modelA.annualOpex
      = (OFFTAKE_PLANT_COSTS zeroHeatScenario.offtake).opexPerYear := rfl
  have hApay : (ownershipComparison emptyRefData zeroHeatScenario).modelA.paybackYears
      = ((core zeroHeatScenario).recoverableHeatMW
            * zeroHeatScenario.whrCapitalCostPerMW * 1000000
          + |(offtakeCosts emptyRefData zeroHeatScenario).totalCapex|
          + (OFFTAKE_PLANT_COSTS zeroHeatScenario.offtake).capexM * 1000000)
        / (annualOperationalSavingsOf zeroHeatScenario + annualRevenueOf zeroHeatScenario
            - (OFFTAKE_PLANT_COSTS zeroHeatScenario.offtake).opexPerYear) := rfl
  have h1 : (ownershipComparison emptyRefData zeroHeatScenario).modelA.annualRevenue
      - (ownershipComparison emptyRefData zeroHeatScenario).modelA.annualOpex = -350000 := by
    rw [hArev, hAopex, hsav, hrev, hplant]
    norm_num
  have h2 : (ownershipComparison emptyRefData zeroHeatScenario).modelA.paybackYears
      = -(80 / 7) := by
    rw [hApay, hhx, hpip, hsav, hrev, hplant]
    norm_num
  exact ⟨h1, h2, by rw [h2]; norm_num⟩

/-- Witness for C1 at the zero-load scenario: the negative-payback branch
of the amended statement fires with the concrete negative net benefit. -/
theorem C1_witness :
    (ownershipComparison emptyRefData zeroHeatScenario).modelA.paybackYears
      = (ownershipComparison emptyRefData zeroHeatScenario).modelA.totalCapex
        / ((ownershipComparison emptyRefData zeroHeatScenario).modelA.annualRevenue
            - (ownershipComparison emptyRefData zeroHeatScenario).modelA.annualOpex) :=
  (C1_payback_raw_quotient emptyRefData zeroHeatScenario).1

end WHR
